import Mathlib

/-!
Verification of the touch-sdk-py connection lifecycle, codec and dispatch
layer, as a shallow embedding in Lean 4.

Conventions used throughout this file:

* Python `set` objects are embedded as duplicate-free `List Nat` values
  (addresses, device ids) manipulated through `addElem` / `removeElem`.
* Python `dict` keys (insertion-ordered) are embedded as `List` in insertion
  order.
* Python floats on the wire are embedded as `ℚ` values; the arm-direction
  derivation (which divides by a square root) is embedded over `ℝ`.
* Code that can raise an exception is embedded with `Option` / an explicit
  `raised` flag: a `none` result (or `raised = true`) marks the point where
  the Python code raises and abandons the rest of the handler.
* Asynchronous handlers are embedded as atomic state transformers over an
  explicit connector state, composed by a step relation: this models the
  single-threaded cooperative event loop in which each BLE callback runs.

Where the repository's own code is not part of the source snapshot (the
scanner methods `forget_address` / `start_scanning` / `stop_scanning` that
`watch_connector.py` calls, and some protobuf message declarations), the
corresponding definitions are modelled from the specification and say so in
their doc comments.
-/

namespace TouchSdk

/-! ### Set-as-list helpers

Python `set.add` and `set.discard` / dict key removal over `List Nat`. -/

/-- Add an element to a set embedded as a list (`set.add` / dict insert). -/
def addElem (a : Nat) (l : List Nat) : List Nat :=
  if a ∈ l then l else l ++ [a]

/-- Remove every occurrence of an element (`set.discard` / `dict.pop`). -/
def removeElem (a : Nat) (l : List Nat) : List Nat :=
  l.filter (fun b => b ≠ a)

/-! ### Connector state machine (`watch_connector.py`, `WatchConnector`)

Bluetooth addresses are embedded as `Nat`.  The fields of `ConnectorState`
embed, in order: the keys of `self._clients` (a dict, insertion-ordered),
`self._approved_addresses`, `self._informed_addresses`, a ghost trace of the
`ClientInfo` GATT writes attempted by `_send_client_info`, and the scanner
state seen by the connector.  The scanner's dedup set and its paused/running
flag are modelled from the spec because `watch_connector.py` calls
`forget_address` / `start_scanning` / `stop_scanning` on its scanner and
those methods are not part of the source snapshot (§4.1 of the spec:
`forget(address)` removes one address from the dedup set; stop/start suspend
and resume emission of discovered devices). -/
structure ConnectorState where
  clients : List Nat
  approvedAddresses : List Nat
  informedAddresses : List Nat
  clientInfoWrites : List Nat
  scannerSeen : List Nat
  scanning : Bool
  deriving DecidableEq

/-- Initial connector state: all sets empty, scanner emitting
(`WatchConnector.__init__` followed by `run`, which starts the scanner). -/
def connectorInit : ConnectorState :=
  { clients := [], approvedAddresses := [], informedAddresses := [],
    clientInfoWrites := [], scannerSeen := [], scanning := true }

/-- `WatchConnector.disconnect`: pop the client for `address` (if any) and
disconnect it, discard `address` from the approved set, tell the scanner to
forget the address, and if no approved address remains, resume scanning.
The scanner calls `forget_address` / `start_scanning` are modelled from the
spec (see `ConnectorState`). -/
def ConnectorState.disconnect (s : ConnectorState) (address : Nat) : ConnectorState :=
  let approved := removeElem address s.approvedAddresses
  { s with
    clients := removeElem address s.clients
    approvedAddresses := approved
    scannerSeen := removeElem address s.scannerSeen
    scanning := if approved.isEmpty then true else s.scanning }

/-- `WatchConnector._send_client_info`: skip entirely when the address was
already informed; otherwise attempt the `ClientInfo` write (GATT errors are
swallowed) and record the address as informed.  The ghost field
`clientInfoWrites` traces the write attempts. -/
def sendClientInfo (s : ConnectorState) (address : Nat) : ConnectorState :=
  if address ∈ s.informedAddresses then s
  else
    { s with
      clientInfoWrites := s.clientInfoWrites ++ [address]
      informedAddresses := addElem address s.informedAddresses }

/-- `WatchConnector._on_scan_result`: try to connect (a timeout runs
`disconnect` and returns), store the client, send the client info, then
subscribe to protobuf notifications (a subscribe failure runs `disconnect`).
`connectOk` and `notifyOk` embed the success of the two fallible transport
calls. -/
def onScanResult (s : ConnectorState) (address : Nat)
    (connectOk notifyOk : Bool) : ConnectorState :=
  if !connectOk then s.disconnect address
  else
    let s1 := { s with clients := addElem address s.clients }
    let s2 := sendClientInfo s1 address
    if notifyOk then s2 else s2.disconnect address

/-- One pass of `WatchConnector._monitor_connections`: disconnect every
stored client whose transport reports not-connected.  `live` is the set of
addresses whose `client.is_connected` is true.  The list of stale addresses
is captured before the disconnects run, as the Python comprehension does. -/
def monitorTick (s : ConnectorState) (live : List Nat) : ConnectorState :=
  (s.clients.filter (fun a => a ∉ live)).foldl ConnectorState.disconnect s

/-! ### Interleaving semantics of the connector

`_handle_approved_connection` suspends between adding an address to
`self._approved_addresses` and finishing the competitors' disconnects:
`await asyncio.gather(*disconnect_tasks)` yields to the event loop, and
`await self._on_approved_connection(client)` performs GATT I/O.  Per §5 of
the spec the suspension points are exactly the transport I/O calls, so
other BLE callbacks can run while an approval handler is parked there.
The semantics below therefore splits the approval handler at those two
suspension points into a parked `ApprovalTask`; everything up to the
`gather` call runs synchronously (the membership check, the `add`, the
capture of the competitor list and the spec-modelled `stop_scanning`
setter contain no suspension point).  Each competitor-disconnect coroutine
of the `gather`, and every other handler (disconnect-signal frames, scan
results, monitor passes), only removes approved addresses, so it is run as
one atomic step. -/

/-- A parked continuation of `_handle_approved_connection` for one
address: `disconnecting` is parked in the `asyncio.gather` with the listed
competitor disconnects still to run; `approving` is parked at
`await self._on_approved_connection(client)`. -/
inductive ApprovalTask where
  | disconnecting (address : Nat) (others : List Nat)
  | approving (address : Nat)
  deriving DecidableEq

/-- The address an approval task is approving. -/
def taskAddress : ApprovalTask → Nat
  | ApprovalTask.disconnecting address _ => address
  | ApprovalTask.approving address => address

/-- The competitor disconnects an approval task still has to run. -/
def taskRemaining : ApprovalTask → List Nat
  | ApprovalTask.disconnecting _ others => others
  | ApprovalTask.approving _ => []

/-- Connector state together with the parked approval handlers of the
event loop. -/
structure FineState where
  state : ConnectorState
  tasks : List ApprovalTask
  deriving DecidableEq

/-- The synchronous entry segment of `_handle_approved_connection` (run
when an accepting first frame arrives, up to the first true suspension
point): return if the address is already approved; otherwise add it to the
approved set, and if a client is stored for it, stop the scanner, capture
the list of every other stored client (the Python list comprehension runs
before the `gather`), and park the handler in the `gather`. -/
def approveEntry (s : FineState) (address : Nat) : FineState :=
  if address ∈ s.state.approvedAddresses then s
  else
    let st1 := { s.state with
      approvedAddresses := addElem address s.state.approvedAddresses }
    if address ∈ st1.clients then
      { state := { st1 with scanning := false }
        tasks := s.tasks ++ [ApprovalTask.disconnecting address
          (st1.clients.filter (fun b => b ≠ address))] }
    else { s with state := st1 }

/-- One scheduler step of the connector's event loop: a scanner report
(guarded by emission being on and the address being new to the scanner), a
first frame carrying the disconnect signal (`_handle_disconnect_signal`),
an accepting first frame (the entry segment of
`_handle_approved_connection`), one competitor disconnect of a parked
`gather`, the `gather` completing (the handler moves to the
approved-connection call), that call returning normally or with the caught
`BleakDBusError` (which disconnects the device again), and a pass of the
liveness monitor.  Frames arrive only for addresses with a stored
(subscribed) client; parked tasks resume in any order. -/
inductive FineStep : FineState → FineState → Prop
  | scan (s : FineState) (address : Nat) (connectOk notifyOk : Bool)
      (hscan : s.state.scanning = true) (hseen : address ∉ s.state.scannerSeen) :
      FineStep s
        ⟨onScanResult { s.state with
            scannerSeen := addElem address s.state.scannerSeen }
          address connectOk notifyOk, s.tasks⟩
  | frameSignal (s : FineState) (address : Nat)
      (hc : address ∈ s.state.clients) :
      FineStep s ⟨s.state.disconnect address, s.tasks⟩
  | frameAccept (s : FineState) (address : Nat)
      (hc : address ∈ s.state.clients) :
      FineStep s (approveEntry s address)
  | taskDisc (s : FineState) (address o : Nat) (os : List Nat)
      (pre post : List ApprovalTask)
      (h : s.tasks = pre ++ ApprovalTask.disconnecting address (o :: os) :: post) :
      FineStep s
        ⟨s.state.disconnect o, pre ++ ApprovalTask.disconnecting address os :: post⟩
  | taskGatherDone (s : FineState) (address : Nat)
      (pre post : List ApprovalTask)
      (h : s.tasks = pre ++ ApprovalTask.disconnecting address [] :: post) :
      FineStep s ⟨s.state, pre ++ ApprovalTask.approving address :: post⟩
  | taskApproveOk (s : FineState) (address : Nat)
      (pre post : List ApprovalTask)
      (h : s.tasks = pre ++ ApprovalTask.approving address :: post) :
      FineStep s ⟨s.state, pre ++ post⟩
  | taskApproveFail (s : FineState) (address : Nat)
      (pre post : List ApprovalTask)
      (h : s.tasks = pre ++ ApprovalTask.approving address :: post) :
      FineStep s ⟨s.state.disconnect address, pre ++ post⟩
  | tick (s : FineState) (live : List Nat) :
      FineStep s ⟨monitorTick s.state live, s.tasks⟩

/-- Reachable configurations of the connector event loop: the initial
state with no parked handler, closed under scheduler steps. -/
inductive FineReachable : FineState → Prop
  | init : FineReachable ⟨connectorInit, []⟩
  | step {s t : FineState} : FineReachable s → FineStep s t → FineReachable t

/-- Invariant of the interleaving semantics: the approved set is
duplicate-free, every approved address has a stored client, and any two
distinct approved addresses have a parked approval handler that is still
going to disconnect one of them. -/
def FineInv (s : FineState) : Prop :=
  s.state.approvedAddresses.Nodup ∧
    (∀ b ∈ s.state.approvedAddresses, b ∈ s.state.clients) ∧
    (∀ x ∈ s.state.approvedAddresses, ∀ y ∈ s.state.approvedAddresses,
      x ≠ y → ∃ t ∈ s.tasks,
        (taskAddress t = x ∧ y ∈ taskRemaining t) ∨
          (taskAddress t = y ∧ x ∈ taskRemaining t))

/-- The race configuration: both connected devices have sent accepting
first frames and both approval handlers are parked in their `gather`, each
still due to disconnect the other — the approved set holds two addresses
at one instant. -/
def raceState : FineState :=
  { state :=
      { clients := [1, 2], approvedAddresses := [1, 2],
        informedAddresses := [1, 2], clientInfoWrites := [1, 2],
        scannerSeen := [1, 2], scanning := false }
    tasks := [ApprovalTask.disconnecting 1 [2],
      ApprovalTask.disconnecting 2 [1]] }

/-- The race configuration after the LATER handler's `gather` disconnects
the earlier device: the later session (address 2) holds the approval and
the earlier session (address 1) has been forced to `Disconnected`. -/
def raceWinnerState : FineState :=
  { state :=
      { clients := [2], approvedAddresses := [2],
        informedAddresses := [1, 2], clientInfoWrites := [1, 2],
        scannerSeen := [2], scanning := false }
    tasks := [ApprovalTask.disconnecting 1 [2],
      ApprovalTask.disconnecting 2 []] }

/-- Trace prefix of the race: device 1 discovered, connected and
subscribed. -/
def racePrefix1 : FineState :=
  { state :=
      { clients := [1], approvedAddresses := [],
        informedAddresses := [1], clientInfoWrites := [1],
        scannerSeen := [1], scanning := true }
    tasks := [] }

/-- Trace prefix of the race: devices 1 and 2 both discovered, connected
and subscribed, no approval yet (a quiescent configuration). -/
def racePrefix2 : FineState :=
  { state :=
      { clients := [1, 2], approvedAddresses := [],
        informedAddresses := [1, 2], clientInfoWrites := [1, 2],
        scannerSeen := [1, 2], scanning := true }
    tasks := [] }

/-- Trace prefix of the race: device 1's accepting first frame has run the
entry segment of `_handle_approved_connection` and its handler is parked
in the `gather`, still due to disconnect device 2. -/
def racePrefix3 : FineState :=
  { state :=
      { clients := [1, 2], approvedAddresses := [1],
        informedAddresses := [1, 2], clientInfoWrites := [1, 2],
        scannerSeen := [1, 2], scanning := false }
    tasks := [ApprovalTask.disconnecting 1 [2]] }

/-! ### Advertisement filtering (`gatt_scanner.py`, `GattScanner`)

This is the device-level scanner of the source snapshot: `self._devices`
deduplicates by device (embedded as `Nat`), and `_detection_callback`
filters advertisements by service UUID and the optional case-insensitive
name filter before reporting a device to the connector callback. -/

/-- Scanner state and configuration: dedup set `self._devices`, the target
service UUID and the optional name filter from `GattScanner.__init__`. -/
structure ScannerState where
  devices : List Nat
  serviceUuid : String
  nameFilter : Option String
  deriving DecidableEq

/-- One BLE advertisement: the decoded manufacturer-data field 0xFFFF
(empty string when absent, like `bytearray().decode`), the advertised local
name, and the advertised service UUIDs. -/
structure AdvertisementData where
  manufacturerName : String
  localName : String
  serviceUuids : List String
  deriving DecidableEq

/-- Name derivation in `_detection_callback`: the decoded manufacturer data
field 0xFFFF, falling back to the local name when it is empty (Python `or`
on a possibly empty string). -/
def advertisedName (adv : AdvertisementData) : String :=
  if adv.manufacturerName ≠ "" then adv.manufacturerName else adv.localName

/-- Whether the first list of characters is an initial segment of the
second. -/
def startsWithChars : List Char → List Char → Bool
  | [], _ => true
  | _ :: _, [] => false
  | c :: cs, d :: ds => c = d && startsWithChars cs ds

/-- Whether the first list of characters occurs contiguously inside the
second (Python `in` on strings). -/
def occursWithin : List Char → List Char → Bool
  | needle, [] => startsWithChars needle []
  | needle, d :: t => startsWithChars needle (d :: t) || occursWithin needle t

/-- Python `needle.lower() in haystack.lower()`: case-insensitive substring
test (lower-casing character by character). -/
def containsCaseInsensitive (haystack needle : String) : Bool :=
  occursWithin (needle.toList.map Char.toLower) (haystack.toList.map Char.toLower)

/-- `GattScanner._detection_callback`: return early when the device was
already seen; otherwise remember it in `self._devices`, derive its name,
and when the advertisement carries the target service UUID and the name
passes the optional case-insensitive filter, report `(device, name)` to the
connector callback.  The returned `Option` is the report. -/
def detectionCallback (s : ScannerState) (device : Nat)
    (adv : AdvertisementData) : ScannerState × Option (Nat × String) :=
  if device ∈ s.devices then (s, none)
  else
    let s1 := { s with devices := addElem device s.devices }
    let name := advertisedName adv
    if s.serviceUuid ∈ adv.serviceUuids then
      match s.nameFilter with
      | some f =>
          if !containsCaseInsensitive name f then (s1, none)
          else (s1, some (device, name))
      | none => (s1, some (device, name))
    else (s1, none)

/-! ### Wire message model (`watch_output_pb2.py` descriptor)

Wire floats are embedded as `ℚ`, wire integers as `Int`.  The `Update`
message and its sub-messages follow the protobuf descriptor of the source
snapshot; the extra `Info` fields that `watch.py` reads but that are not in
the snapshot's descriptor (battery, screen resolution, haptics flag, device
name, manufacturer, model info) are modelled from §6 of the spec.  Optional
sub-messages tested with `HasField` are embedded as `Option`; plain proto3
scalar fields carry their default value when absent, exactly as the Python
accessors do. -/
structure Vec2 where
  x : ℚ
  y : ℚ
  deriving DecidableEq

structure Vec3 where
  x : ℚ
  y : ℚ
  z : ℚ
  deriving DecidableEq

structure Quat where
  x : ℚ
  y : ℚ
  z : ℚ
  w : ℚ
  deriving DecidableEq

/-- `GestureType` enum of `common.proto` (mirrored by the `GestureType`
`IntEnum` in `watch.py`). -/
inductive GestureType where
  | NONE | PINCH_TAP | CLENCH | SURFACE_TAP | PINCH_HOLD
  | DPAD_LEFT | DPAD_RIGHT | DPAD_UP | DPAD_DOWN
  deriving DecidableEq

/-- `Info.Hand` enum (mirrored by the `Hand` enum in `watch.py`). -/
inductive Hand where
  | NONE | RIGHT | LEFT
  deriving DecidableEq

/-- `SensorFrame` wire message.  `mag` and `magCal` are checked with
`HasField` by `watch.py`, hence `Option`. -/
structure PSensorFrame where
  gyro : Vec3
  acc : Vec3
  grav : Vec3
  quat : Quat
  mag : Option Vec3
  magCal : Option Vec3
  deltaTime : Int
  deriving DecidableEq

structure PGesture where
  type : GestureType
  deltaTime : Int
  deriving DecidableEq

inductive TouchEventType where
  | NONE | BEGIN | END | MOVE | CANCEL
  deriving DecidableEq

structure PTouchEvent where
  eventType : TouchEventType
  actionIndex : Int
  pointerIds : List Int
  coords : List Vec2
  deltaTime : Int
  deriving DecidableEq

structure PRotaryEvent where
  step : Int
  deltaTime : Int
  deriving DecidableEq

structure PButtonEvent where
  id : Int
  deltaTime : Int
  deriving DecidableEq

structure ProbabilityEntry where
  label : GestureType
  probability : ℚ
  deriving DecidableEq

/-- `Model` message of `common.proto` (a gesture set).  Modelled from the
spec (§3 `GestureSet`): `common_pb2.py` is not part of the source
snapshot. -/
structure PModel where
  gestures : List GestureType
  deriving DecidableEq

/-- `Info` wire message.  The first five fields are from the snapshot's
protobuf descriptor; the remaining fields are modelled from the spec (§6:
battery%, touch-screen resolution, haptics-available flag, device and
manufacturer name, free-text model info), since the descriptor declaring
them is not part of the source snapshot.  `touchScreenResolution` is a
sub-message whose Python accessor never returns `None`. -/
structure PInfo where
  hand : Hand
  appId : String
  appVersion : String
  availableModels : List PModel
  activeModel : PModel
  batteryPercentage : Int
  touchScreenResolution : Int × Int
  hapticsAvailable : Bool
  deviceName : String
  manufacturer : String
  modelInfo : String
  deriving DecidableEq

/-- `Update.Signal` enum. -/
inductive Signal where
  | NONE | DISCONNECT | CONNECT_APPROVED | DESCRIPTION_UPDATE
  deriving DecidableEq

/-- `Update` wire message (`watch_output.proto`): one notification frame. -/
structure Update where
  sensorFrames : List PSensorFrame
  gestures : List PGesture
  touchEvents : List PTouchEvent
  buttonEvents : List PButtonEvent
  rotaryEvents : List PRotaryEvent
  signals : List Signal
  deltaTime : Int
  unixTime : Int
  info : Option PInfo
  probabilities : List ProbabilityEntry
  pressure : ℚ
  deriving DecidableEq

/-- `any(s == Update.Signal.DISCONNECT for s in message.signals)` in
`WatchConnector._on_protobuf`. -/
def Update.hasDisconnectSignal (u : Update) : Bool :=
  u.signals.any (fun s => s = Signal.DISCONNECT)

/-! ### Dispatcher state (`watch.py`, `Watch`) -/

/-- Domain `SensorFrame` value type built by `Watch._proto_on_sensors`. -/
structure SensorFrame where
  acceleration : ℚ × ℚ × ℚ
  gravity : ℚ × ℚ × ℚ
  angularVelocity : ℚ × ℚ × ℚ
  orientation : ℚ × ℚ × ℚ × ℚ
  magneticField : Option (ℚ × ℚ × ℚ)
  magneticFieldCalibration : Option (ℚ × ℚ × ℚ)
  timestamp : Int
  deriving DecidableEq

/-- The device-metadata fields of `Watch` (`DeviceInfo` in the spec).
Gesture sets are embedded as duplicate-free lists (`List.dedup` plays the
role of Python `set`). -/
structure InfoState where
  hand : Hand
  batteryPercentage : Int
  screenResolution : Option (Int × Int)
  hapticsAvailable : Bool
  appVersion : String
  appId : String
  deviceName : String
  manufacturer : String
  modelInfo : String
  availableModels : List (List GestureType)
  activeModel : List GestureType
  deriving DecidableEq

/-- Initial metadata of `Watch.__init__`. -/
def infoInit : InfoState :=
  { hand := Hand.NONE, batteryPercentage := -1, screenResolution := none,
    hapticsAvailable := false, appVersion := "", appId := "",
    deviceName := "", manufacturer := "", modelInfo := "",
    availableModels := [], activeModel := [] }

/-- `set(map(lambda g: GestureType(g), model.gestures))`. -/
def gestureSet (m : PModel) : List GestureType :=
  m.gestures.dedup

/-- `Watch._proto_on_info`: merge one inbound info message into the stored
metadata.  Battery is merged when non-zero (Python truthiness); a `NONE`
hand means a battery-only update and returns early without firing
`on_info_update`; otherwise each remaining field is overwritten when
truthy, in source order.  The `touchScreenResolution` and `activeModel`
accessors are protobuf sub-messages and therefore always truthy in the
Python code, so those two fields are always overwritten.  Returns the new
state and whether `on_info_update` fired. -/
def protoOnInfo (st : InfoState) (info : PInfo) : InfoState × Bool :=
  let st := if info.batteryPercentage ≠ 0
    then { st with batteryPercentage := info.batteryPercentage } else st
  if info.hand = Hand.NONE then (st, false)
  else
    let st := { st with hand := info.hand }
    let st := { st with screenResolution := some info.touchScreenResolution }
    let st := if info.hapticsAvailable
      then { st with hapticsAvailable := true } else st
    let st := if info.appVersion ≠ ""
      then { st with appVersion := info.appVersion } else st
    let st := if info.appId ≠ "" then { st with appId := info.appId } else st
    let st := if info.deviceName ≠ ""
      then { st with deviceName := info.deviceName } else st
    let st := if info.manufacturer ≠ ""
      then { st with manufacturer := info.manufacturer } else st
    let st := { st with activeModel := gestureSet info.activeModel }
    let st := if info.availableModels ≠ []
      then { st with availableModels := info.availableModels.map gestureSet }
      else st
    let st := if info.modelInfo ≠ ""
      then { st with modelInfo := info.modelInfo } else st
    (st, true)

/-! ### Callback dispatch (`Watch._on_protobuf` and helpers)

The user-visible effect of decoding one frame is the ordered list of
callback invocations.  `CEvent.armDirectionChange` records the invocation
of `_on_arm_direction_change(sensor_frame)`; the real numbers it passes to
`on_arm_direction_change` are computed by `armDirectionDeltas` below. -/
inductive CEvent where
  | gestureProbability (probs : List (GestureType × ℚ))
  | sensors (frame : SensorFrame)
  | armDirectionChange (frame : SensorFrame)
  | tap
  | gesture (g : GestureType)
  | touchDown (x y : ℚ)
  | touchUp (x y : ℚ)
  | touchMove (x y : ℚ)
  | touchCancel (x y : ℚ)
  | backButton
  | rotary (direction : Int)
  | infoUpdated
  | pressure (p : ℚ)
  deriving DecidableEq

/-- Update an association list at a key, keeping the first-insertion
position (Python dict assignment). -/
def assocUpdate : List (GestureType × ℚ) → GestureType → ℚ →
    List (GestureType × ℚ)
  | [], k, v => [(k, v)]
  | (k1, v1) :: t, k, v =>
      if k1 = k then (k1, v) :: t else (k1, v1) :: assocUpdate t k v

/-- `{k.label: k.probability for k in message.probabilities}`: a dict
built left to right. -/
def probDict (entries : List ProbabilityEntry) : List (GestureType × ℚ) :=
  entries.foldl (fun acc p => assocUpdate acc p.label p.probability) []

/-- Build the domain `SensorFrame` from a wire frame and the frame's
`unixTime`, as `Watch._proto_on_sensors` does. -/
def mkSensorFrame (f : PSensorFrame) (unixTime : Int) : SensorFrame :=
  { acceleration := (f.acc.x, f.acc.y, f.acc.z)
    gravity := (f.grav.x, f.grav.y, f.grav.z)
    angularVelocity := (f.gyro.x, f.gyro.y, f.gyro.z)
    orientation := (f.quat.x, f.quat.y, f.quat.z, f.quat.w)
    magneticField := f.mag.map (fun v => (v.x, v.y, v.z))
    magneticFieldCalibration := f.magCal.map (fun v => (v.x, v.y, v.z))
    timestamp := unixTime }

/-- `Watch._proto_on_gestures`: an empty batch emits one `NONE` gesture
event; otherwise each entry emits `on_tap` first when it is a pinch tap,
then `on_gesture` with its type. -/
def protoOnGestures (gs : List PGesture) : List CEvent :=
  if gs = [] then [CEvent.gesture GestureType.NONE]
  else gs.flatMap (fun g =>
    (if g.type = GestureType.PINCH_TAP then [CEvent.tap] else []) ++
      [CEvent.gesture g.type])

/-- The touch callback chosen by the `eventType` if/elif chain (no event
for the `NONE` type, which matches no branch). -/
def touchEventFor (t : TouchEventType) (c : Vec2) : List CEvent :=
  match t with
  | TouchEventType.BEGIN => [CEvent.touchDown c.x c.y]
  | TouchEventType.END => [CEvent.touchUp c.x c.y]
  | TouchEventType.MOVE => [CEvent.touchMove c.x c.y]
  | TouchEventType.CANCEL => [CEvent.touchCancel c.x c.y]
  | TouchEventType.NONE => []

/-- `Watch._proto_on_touch_events`: each entry reads `touch.coords[0]`
before dispatching on its type, so an entry with no coordinates raises
`IndexError` (second component `true`) and the remaining entries are
abandoned. -/
def protoOnTouchEvents : List PTouchEvent → List CEvent × Bool
  | [] => ([], false)
  | t :: rest =>
      match t.coords.head? with
      | none => ([], true)
      | some c =>
          let r := protoOnTouchEvents rest
          (touchEventFor t.eventType c ++ r.1, r.2)

/-- `Watch._proto_on_button_events`: one back-button event when any button
id is 0. -/
def protoOnButtonEvents (bs : List PButtonEvent) : List CEvent :=
  if bs.any (fun b => b.id = 0) then [CEvent.backButton] else []

/-- `Watch._proto_on_rotary_events`: one rotation event per entry with the
wire step negated. -/
def protoOnRotaryEvents (rs : List PRotaryEvent) : List CEvent :=
  rs.map (fun r => CEvent.rotary (-r.step))

/-- The info part of `Watch._on_protobuf`: when the frame has an info
sub-message, merge it and fire `on_info_update` when the merge says so. -/
def infoStep (st : InfoState) (oi : Option PInfo) : InfoState × List CEvent :=
  match oi with
  | some i =>
      let r := protoOnInfo st i
      (r.1, if r.2 then [CEvent.infoUpdated] else [])
  | none => (st, [])

/-- The pressure part of `Watch._on_protobuf`: a pressure callback exactly
when the wire value is non-zero. -/
def pressureEvents (p : ℚ) : List CEvent :=
  if p ≠ 0 then [CEvent.pressure p] else []

/-- Result of dispatching one frame: the ordered callback trace, the
metadata state afterwards, and whether the handler raised
(`IndexError` from `frames[-1]` or `coords[0]`). -/
structure DispatchResult where
  events : List CEvent
  state : InfoState
  raised : Bool
  deriving DecidableEq

/-- `Watch._on_protobuf`: fire the gesture-probability callback, then the
sensor step (which reads `frames[-1]` first — an empty sensor batch raises
`IndexError` there and abandons the rest of the handler), then gestures,
touch, button and rotary events, then the info merge when the frame has an
info sub-message, then the pressure callback when pressure is non-zero. -/
def dispatchUpdate (st : InfoState) (u : Update) : DispatchResult :=
  let probEvs : List CEvent :=
    [CEvent.gestureProbability (probDict u.probabilities)]
  match u.sensorFrames.getLast? with
  | none => { events := probEvs, state := st, raised := true }
  | some f =>
      let frame := mkSensorFrame f u.unixTime
      let sensorEvs : List CEvent :=
        [CEvent.sensors frame, CEvent.armDirectionChange frame]
      let gestureEvs := protoOnGestures u.gestures
      let touchR := protoOnTouchEvents u.touchEvents
      if touchR.2 then
        { events := probEvs ++ sensorEvs ++ gestureEvs ++ touchR.1,
          state := st, raised := true }
      else
        let buttonEvs := protoOnButtonEvents u.buttonEvents
        let rotaryEvs := protoOnRotaryEvents u.rotaryEvents
        let infoR := infoStep st u.info
        { events := probEvs ++ sensorEvs ++ gestureEvs ++ touchR.1 ++
            buttonEvs ++ rotaryEvs ++ infoR.2 ++ pressureEvents u.pressure,
          state := infoR.1, raised := false }

/-! ### Custom-characteristic unpacking (`utils.py`, `unpack_chained`)

Payload bytes are embedded as `Nat` values below 256.  The Python `struct`
module is a stdlib collaborator: its standard sizes are modelled exactly;
native `@` mode is modelled with the standard sizes and no alignment
padding, and the numeric reinterpretation of character, boolean and
floating-point formats is abstracted to the raw field value.  `none`
results embed the points where the Python code raises. -/

/-- The endianness tokens `"@<>=!"` of `unpack_chained`. -/
def endiannessTokens : List Char := ['@', '<', '>', '=', '!']

/-- Size in bytes of one `struct` format character (standard mode); `none`
for an unsupported character, where `struct.calcsize` raises. -/
def fmtCharSize (c : Char) : Option Nat :=
  if c = 'x' ∨ c = 'c' ∨ c = 'b' ∨ c = 'B' ∨ c = '?' then some 1
  else if c = 'h' ∨ c = 'H' ∨ c = 'e' then some 2
  else if c = 'i' ∨ c = 'I' ∨ c = 'l' ∨ c = 'L' ∨ c = 'f' then some 4
  else if c = 'q' ∨ c = 'Q' ∨ c = 'd' then some 8
  else none

/-- Whether a format character decodes as a signed integer. -/
def fmtCharSigned (c : Char) : Bool :=
  decide (c = 'b' ∨ c = 'h' ∨ c = 'i' ∨ c = 'l' ∨ c = 'q')

/-- Parse the body of one format segment into (repeat count, format
character) items; a count defaults to 1 and a trailing count with no
specifier is an error, as in `struct.calcsize`. -/
def parseFmtItems : List Char → Nat → Bool → Option (List (Nat × Char))
  | [], _, hasCount => if hasCount then none else some []
  | c :: rest, n, hasCount =>
      if c.isDigit then parseFmtItems rest (n * 10 + (c.toNat - 48)) true
      else
        match fmtCharSize c with
        | none => none
        | some _ =>
            match parseFmtItems rest 0 false with
            | none => none
            | some items => some ((if hasCount then n else 1, c) :: items)

/-- Total byte size of a parsed item list (`struct.calcsize`). -/
def itemsSize (items : List (Nat × Char)) : Nat :=
  items.foldl (fun acc it => acc + it.1 * (fmtCharSize it.2).getD 0) 0

/-- `struct.calcsize` of one segment from the lookahead split: a leading
endianness character contributes size 0. -/
def structCalcsize (seg : List Char) : Option Nat :=
  let body := match seg with
    | c :: rest => if c ∈ endiannessTokens then rest else seg
    | [] => []
  (parseFmtItems body 0 false).map itemsSize

/-- Byte order and body of one segment: `@`, `=` and `<` decode
little-endian (native order modelled as little-endian), `>` and `!`
big-endian. -/
def segOrder (seg : List Char) : Bool × List Char :=
  match seg with
  | c :: rest =>
      if c = '<' ∨ c = '@' ∨ c = '=' then (true, rest)
      else if c = '>' ∨ c = '!' then (false, rest)
      else (true, seg)
  | [] => (true, [])

/-- Little-endian unsigned value of a byte list. -/
def leValue : List Nat → Nat
  | [] => 0
  | b :: rest => b + 256 * leValue rest

/-- Decode one fixed-width field: order the bytes, read the unsigned
value, and apply two's complement for signed integer characters. -/
def decodeField (little signed : Bool) (bytes : List Nat) : Int :=
  let bs := if little then bytes else bytes.reverse
  let u := leValue bs
  if signed ∧ 2 * u ≥ 256 ^ bytes.length then
    (u : Int) - ((256 ^ bytes.length : Nat) : Int)
  else (u : Int)

/-- Unpack `count` copies of a field of width `size` bytes, returning the
values and the remaining bytes. -/
def takeFields (little signed : Bool) (size : Nat) :
    Nat → List Nat → List Int × List Nat
  | 0, piece => ([], piece)
  | k + 1, piece =>
      let v := decodeField little signed (piece.take size)
      let r := takeFields little signed size k (piece.drop size)
      (v :: r.1, r.2)

/-- Values of a parsed item list against a byte piece; pad bytes `x`
consume bytes but produce no value. -/
def unpackItems (little : Bool) : List (Nat × Char) → List Nat → List Int
  | [], _ => []
  | (count, c) :: items, piece =>
      if c = 'x' then unpackItems little items (piece.drop count)
      else
        let r := takeFields little (fmtCharSigned c) ((fmtCharSize c).getD 0)
          count piece
        r.1 ++ unpackItems little items r.2

/-- `struct.unpack(fmt, piece)` for one segment: `none` when the format is
malformed or the piece length differs from `calcsize(fmt)` (both raise
`struct.error` in Python). -/
def structUnpack (seg : List Char) (piece : List Nat) : Option (List Int) :=
  let p := segOrder seg
  match parseFmtItems p.2 0 false with
  | none => none
  | some items =>
      if piece.length = itemsSize items then some (unpackItems p.1 items piece)
      else none

/-- `re.split("(?=[@<>=!])", desc)`: close the running segment before
every endianness token; the piece before the first token is kept, as
`re.split` keeps it. -/
def splitSegmentsAux : List Char → List Char → List (List Char)
  | [], acc => [acc.reverse]
  | c :: rest, acc =>
      if c ∈ endiannessTokens then acc.reverse :: splitSegmentsAux rest [c]
      else splitSegmentsAux rest (c :: acc)

/-- Split a format description at every endianness token. -/
def splitSegments (desc : List Char) : List (List Char) :=
  splitSegmentsAux desc []

/-- `itertools.accumulate`: running totals, starting at the first
element. -/
def accumulateSums : List Nat → Nat → List Nat
  | [], _ => []
  | n :: rest, acc => (acc + n) :: accumulateSums rest (acc + n)

/-- Python slice `data[start:stop]` (clamping, never raising). -/
def sliceClamped (data : List Nat) (start stop : Nat) : List Nat :=
  (data.drop start).take (stop - start)

/-- `struct.calcsize` over every segment; `none` as soon as one is
malformed. -/
def traverseSizes : List (List Char) → Option (List Nat)
  | [] => some []
  | seg :: rest =>
      match structCalcsize seg, traverseSizes rest with
      | some n, some t => some (n :: t)
      | _, _ => none

/-- `struct.unpack` over every (piece, segment) pair; `none` as soon as
one fails. -/
def traverseUnpack : List (List Nat × List Char) → Option (List (List Int))
  | [] => some []
  | pr :: rest =>
      match structUnpack pr.2 pr.1, traverseUnpack rest with
      | some vs, some t => some (vs :: t)
      | _, _ => none

/-- `unpack_chained(format_string, data)`: prepend `@` when the format
does not start with an endianness token (an empty format raises
`IndexError` at `format_string[0]`), split before every endianness token,
size every segment with `calcsize`, cut the payload into consecutive
ranges (`accumulate` + `pairwise`), unpack each piece with its own
segment, and flatten the results into one tuple.  `none` embeds a raised
exception. -/
def unpackChained (formatString : String) (data : List Nat) :
    Option (List Int) :=
  match formatString.toList with
  | [] => none
  | c :: rest =>
      let desc := if c ∈ endiannessTokens then c :: rest else '@' :: c :: rest
      let segs := splitSegments desc
      match traverseSizes segs with
      | none => none
      | some sizes =>
          let offsets := accumulateSums sizes 0
          let ranges := offsets.zip (offsets.drop 1)
          let pieces := ranges.map (fun r => sliceClamped data r.1 r.2)
          match traverseUnpack (pieces.zip (segs.drop 1)) with
          | none => none
          | some nested => some nested.flatten

/-- `Watch._on_custom_data`: look up the characteristic's registered
format (`(self.custom_data or {}).get(uuid)`); when absent, return
silently with no callback; when present, unpack the payload — an unpack
exception propagates out of the handler (there is no try/except around
it), embedded as `none` — and on success fire `on_custom_data` once with
the uuid and the flat tuple. -/
def onCustomData (customData : List (String × String)) (uuid : String)
    (data : List Nat) : Option (List (String × List Int)) :=
  match customData.lookup uuid with
  | none => some []
  | some formatString =>
      match unpackChained formatString data with
      | none => none
      | some content => some [(uuid, content)]

/-- A batch of custom notifications: the handler keeps no state, so the
notifications are handled independently of one another. -/
def processCustomNotifications (customData : List (String × String))
    (batch : List (String × List Nat)) :
    List (Option (List (String × List Int))) :=
  batch.map (fun n => onCustomData customData n.1 n.2)

/-- `HapticEvent.HapticType` (modelled from the spec and the single use in
`watch.py`: `watch_input_pb2.py` is not part of the source snapshot). -/
inductive HapticType where
  | ONESHOT
  deriving DecidableEq

/-- `HapticEvent` outbound message fields set by
`Watch._create_haptics_update`. -/
structure HapticEvent where
  type : HapticType
  length : Int
  intensity : ℚ
  deriving DecidableEq

/-- Outbound `InputUpdate` message.  Modelled from the spec (§3: tagged
variants `ClientInfo`, `HapticTrigger`, `ModelRequest`);
`watch_input_pb2.py` is not part of the source snapshot. -/
structure InputUpdate where
  hapticEvent : Option HapticEvent
  clientInfo : Option (String × String × String)
  modelRequest : Option (List GestureType)
  deriving DecidableEq

/-- `Watch._create_haptics_update`: clamp the intensity to `[0, 1]` and
the integer duration to `[0, 5000]`, then wrap a `ONESHOT` haptic event in
an `InputUpdate`.  Total: out-of-range input is clamped, never rejected. -/
def createHapticsUpdate (intensity : ℚ) (length : Int) : InputUpdate :=
  let clampedIntensity := min (max intensity 0) 1
  let clampedLength := min (max length 0) 5000
  { hapticEvent := some
      { type := HapticType.ONESHOT, length := clampedLength,
        intensity := clampedIntensity }
    clientInfo := none, modelRequest := none }

/-- Cast a rational triple to the reals. -/
noncomputable def castTriple (v : ℚ × ℚ × ℚ) : ℝ × ℝ × ℝ :=
  ((v.1 : ℝ), (v.2.1 : ℝ), (v.2.2 : ℝ))

/-- The inner `normalize` helper of `Watch._on_arm_direction_change`:
divide each component by the square root of the sum of squares
(`sum(x * x for x in vector) ** 0.5`).  Python float arithmetic is
embedded as exact real arithmetic. -/
noncomputable def normalize3 (v : ℝ × ℝ × ℝ) : ℝ × ℝ × ℝ :=
  let length := Real.sqrt (v.1 * v.1 + v.2.1 * v.2.1 + v.2.2 * v.2.2)
  (v.1 / length, v.2.1 / length, v.2.2 / length)

/-- `Watch._on_arm_direction_change`: normalize the gravity of the frame,
negate the z and y angular velocities, flip the sign of the second output
for a left-handed wearer, and produce the `(delta_x, delta_y)` pair passed
to `on_arm_direction_change`. -/
noncomputable def armDirectionDeltas (hand : Hand) (frame : SensorFrame) :
    ℝ × ℝ :=
  let grav := normalize3 (castTriple frame.gravity)
  let avX : ℝ := -(frame.angularVelocity.2.2 : ℝ)
  let avY : ℝ := -(frame.angularVelocity.2.1 : ℝ)
  let handednessScale : ℝ := if hand = Hand.LEFT then -1 else 1
  (avX * grav.2.2 + avY * grav.2.1,
    handednessScale * (avY * grav.2.2 - avX * grav.2.1))

/-- Modelled from the spec: the arm-direction-change formula of §4.3 over
real vectors — normalize the gravity vector `g`, let `avx` and `avy` be
the negated z and y angular velocities, let `s` be `-1` for the left hand
and `+1` otherwise, and return
`(avx * g.z + avy * g.y, s * (avy * g.z - avx * g.y))`. -/
noncomputable def specArmDirectionChange (hand : Hand)
    (gravity angularVelocity : ℝ × ℝ × ℝ) : ℝ × ℝ :=
  let len := Real.sqrt (gravity.1 * gravity.1 + gravity.2.1 * gravity.2.1 +
    gravity.2.2 * gravity.2.2)
  let g := (gravity.1 / len, gravity.2.1 / len, gravity.2.2 / len)
  let avx := -angularVelocity.2.2
  let avy := -angularVelocity.2.1
  let s : ℝ := if hand = Hand.LEFT then -1 else 1
  (avx * g.2.2 + avy * g.2.1, s * (avy * g.2.2 - avx * g.2.1))

/-- A concrete frame with gravity `(0, 0, 9.81)` and angular velocity
`(0, 2, 0)`. -/
def armSampleFrame : SensorFrame :=
  { acceleration := (0, 0, 0), gravity := (0, 0, 981 / 100)
    angularVelocity := (0, 2, 0), orientation := (0, 0, 0, 1)
    magneticField := none, magneticFieldCalibration := none, timestamp := 0 }

/-- Whether a callback event is an `on_sensors` invocation. -/
def isSensorsEvent : CEvent → Bool
  | CEvent.sensors _ => true
  | _ => false

/-- Constructor classifier for callback events; the five events preceding
the touch step have kinds 0–4 and every event a later step can emit has
kind ≥ 5. -/
def evKind : CEvent → Nat
  | CEvent.gestureProbability _ => 0
  | CEvent.sensors _ => 1
  | CEvent.armDirectionChange _ => 2
  | CEvent.tap => 3
  | CEvent.gesture _ => 4
  | CEvent.touchDown _ _ => 5
  | CEvent.touchUp _ _ => 5
  | CEvent.touchMove _ _ => 5
  | CEvent.touchCancel _ _ => 5
  | CEvent.backButton => 6
  | CEvent.rotary _ => 7
  | CEvent.infoUpdated => 8
  | CEvent.pressure _ => 9

/-- A concrete wire sensor frame whose acceleration x marks its index in
the batch. -/
def samplePFrame (n : ℚ) : PSensorFrame :=
  { gyro := { x := 0, y := 0, z := 0 }
    acc := { x := n, y := 0, z := 0 }
    grav := { x := 0, y := 0, z := 0 }
    quat := { x := 0, y := 0, z := 0, w := 1 }
    mag := none, magCal := none, deltaTime := 0 }

/-- A concrete frame with a three-frame sensor batch and a single pinch
tap. -/
def sampleTapUpdate : Update :=
  { sensorFrames := [samplePFrame 1, samplePFrame 2, samplePFrame 3]
    gestures := [{ type := GestureType.PINCH_TAP, deltaTime := 0 }]
    touchEvents := [], buttonEvents := [], rotaryEvents := [], signals := []
    deltaTime := 0, unixTime := 9, info := none, probabilities := []
    pressure := 0 }

/-! ### Theorems -/
theorem mem_addElem {a b : Nat} {l : List Nat} :
    b ∈ addElem a l ↔ b ∈ l ∨ b = a := by
  simp only [addElem]
  split
  · rename_i h
    constructor
    · exact fun hb => Or.inl hb
    · rintro (hb | rfl)
      · exact hb
      · exact h
  · simp

theorem mem_removeElem {a b : Nat} {l : List Nat} :
    b ∈ removeElem a l ↔ b ∈ l ∧ b ≠ a := by
  simp [removeElem]

theorem nodup_addElem {a : Nat} {l : List Nat} (h : l.Nodup) :
    (addElem a l).Nodup := by
  simp only [addElem]
  split
  · exact h
  · rename_i hmem
    refine List.Nodup.append h (List.nodup_singleton a) ?_
    intro b hb hba
    simp only [List.mem_singleton] at hba
    exact hmem (hba ▸ hb)

theorem nodup_removeElem {a : Nat} {l : List Nat} (h : l.Nodup) :
    (removeElem a l).Nodup :=
  h.filter _

theorem mem_approved_disconnect {s : ConnectorState} {a b : Nat} :
    b ∈ (s.disconnect a).approvedAddresses ↔
      b ∈ s.approvedAddresses ∧ b ≠ a := by
  simp [ConnectorState.disconnect, mem_removeElem]

theorem mem_clients_disconnect {s : ConnectorState} {a b : Nat} :
    b ∈ (s.disconnect a).clients ↔ b ∈ s.clients ∧ b ≠ a := by
  simp [ConnectorState.disconnect, mem_removeElem]

theorem baseInv_disconnect {s : ConnectorState}
    (hnd : s.approvedAddresses.Nodup)
    (hsub : ∀ b ∈ s.approvedAddresses, b ∈ s.clients) (a : Nat) :
    (s.disconnect a).approvedAddresses.Nodup ∧
      ∀ b ∈ (s.disconnect a).approvedAddresses, b ∈ (s.disconnect a).clients := by
  refine ⟨nodup_removeElem hnd, ?_⟩
  intro b hb
  rw [mem_approved_disconnect] at hb
  rw [mem_clients_disconnect]
  exact ⟨hsub b hb.1, hb.2⟩

theorem mem_approved_foldl_disconnect {l : List Nat} {b : Nat} :
    ∀ {s : ConnectorState},
      b ∈ (l.foldl ConnectorState.disconnect s).approvedAddresses ↔
        b ∈ s.approvedAddresses ∧ b ∉ l := by
  induction l with
  | nil => simp
  | cons a t ih =>
      intro s
      rw [List.foldl_cons, ih, mem_approved_disconnect]
      constructor
      · rintro ⟨⟨hb, hba⟩, hbt⟩
        exact ⟨hb, by simp [hba, hbt]⟩
      · rintro ⟨hb, hbl⟩
        simp only [List.mem_cons, not_or] at hbl
        exact ⟨⟨hb, hbl.1⟩, hbl.2⟩

theorem mem_clients_foldl_disconnect {l : List Nat} {b : Nat} :
    ∀ {s : ConnectorState},
      b ∈ (l.foldl ConnectorState.disconnect s).clients ↔
        b ∈ s.clients ∧ b ∉ l := by
  induction l with
  | nil => simp
  | cons a t ih =>
      intro s
      rw [List.foldl_cons, ih, mem_clients_disconnect]
      constructor
      · rintro ⟨⟨hb, hba⟩, hbt⟩
        exact ⟨hb, by simp [hba, hbt]⟩
      · rintro ⟨hb, hbl⟩
        simp only [List.mem_cons, not_or] at hbl
        exact ⟨⟨hb, hbl.1⟩, hbl.2⟩

theorem nodup_approved_foldl_disconnect {l : List Nat} :
    ∀ {s : ConnectorState}, s.approvedAddresses.Nodup →
      (l.foldl ConnectorState.disconnect s).approvedAddresses.Nodup := by
  induction l with
  | nil => exact fun h => h
  | cons a t ih =>
      intro s h
      exact ih (nodup_removeElem h)

theorem length_le_one_of_forall_eq {l : List Nat} (hnd : l.Nodup) (a : Nat)
    (h : ∀ b ∈ l, b = a) : l.length ≤ 1 := by
  match l with
  | [] => simp
  | [_] => simp
  | x :: y :: t =>
      exfalso
      have hx : x = a := h x (by simp)
      have hy : y = a := h y (by simp)
      have : x ≠ y := by
        have := List.nodup_cons.mp hnd
        exact fun hxy => this.1 (by simp [hxy])
      exact this (hx.trans hy.symm)

theorem approved_sendClientInfo (s : ConnectorState) (address : Nat) :
    (sendClientInfo s address).approvedAddresses = s.approvedAddresses := by
  unfold sendClientInfo
  split <;> rfl

theorem clients_sendClientInfo (s : ConnectorState) (address : Nat) :
    (sendClientInfo s address).clients = s.clients := by
  unfold sendClientInfo
  split <;> rfl

theorem mem_approved_onScanResult {s : ConnectorState} {address b : Nat}
    {connectOk notifyOk : Bool}
    (h : b ∈ (onScanResult s address connectOk notifyOk).approvedAddresses) :
    b ∈ s.approvedAddresses := by
  unfold onScanResult at h
  split at h
  · exact (mem_approved_disconnect.mp h).1
  · simp only at h
    split at h
    · rw [approved_sendClientInfo] at h
      exact h
    · rw [mem_approved_disconnect, approved_sendClientInfo] at h
      exact h.1

theorem baseInv_onScanResult {s : ConnectorState}
    (hnd : s.approvedAddresses.Nodup)
    (hsub : ∀ b ∈ s.approvedAddresses, b ∈ s.clients)
    (address : Nat) (connectOk notifyOk : Bool) :
    (onScanResult s address connectOk notifyOk).approvedAddresses.Nodup ∧
      ∀ b ∈ (onScanResult s address connectOk notifyOk).approvedAddresses,
        b ∈ (onScanResult s address connectOk notifyOk).clients := by
  unfold onScanResult
  split
  · exact baseInv_disconnect hnd hsub address
  · have h1 : ∀ b ∈ s.approvedAddresses,
        b ∈ ({ s with clients := addElem address s.clients }).clients := by
      intro b hb
      exact mem_addElem.mpr (Or.inl (hsub b hb))
    simp only
    split
    · constructor
      · rw [approved_sendClientInfo]
        exact hnd
      · intro b hb
        rw [approved_sendClientInfo] at hb
        rw [clients_sendClientInfo]
        exact h1 b hb
    · refine baseInv_disconnect ?_ ?_ address
      · rw [approved_sendClientInfo]
        exact hnd
      · intro b hb
        rw [approved_sendClientInfo] at hb
        rw [clients_sendClientInfo]
        exact h1 b hb

theorem baseInv_foldl_disconnect {l : List Nat} {s : ConnectorState}
    (hnd : s.approvedAddresses.Nodup)
    (hsub : ∀ b ∈ s.approvedAddresses, b ∈ s.clients) :
    (l.foldl ConnectorState.disconnect s).approvedAddresses.Nodup ∧
      ∀ b ∈ (l.foldl ConnectorState.disconnect s).approvedAddresses,
        b ∈ (l.foldl ConnectorState.disconnect s).clients := by
  refine ⟨nodup_approved_foldl_disconnect hnd, ?_⟩
  intro b hb
  rw [mem_approved_foldl_disconnect] at hb
  rw [mem_clients_foldl_disconnect]
  exact ⟨hsub b hb.1, hb.2⟩

theorem approveEntry_of_mem {s : FineState} {address : Nat}
    (hmem : address ∈ s.state.approvedAddresses) :
    approveEntry s address = s := by
  simp [approveEntry, hmem]

theorem approveEntry_spec {s : FineState} {address : Nat}
    (hmem : address ∉ s.state.approvedAddresses)
    (hc : address ∈ s.state.clients) :
    approveEntry s address =
      { state := { s.state with
          approvedAddresses := addElem address s.state.approvedAddresses,
          scanning := false }
        tasks := s.tasks ++ [ApprovalTask.disconnecting address
          (s.state.clients.filter (fun b => b ≠ address))] } := by
  simp [approveEntry, hmem, hc]

/-- Preservation of `FineInv` under one scheduler step. -/
theorem fineInv_step {s t : FineState} (hinv : FineInv s)
    (hstep : FineStep s t) : FineInv t := by
  obtain ⟨hnd, hsub, hpair⟩ := hinv
  cases hstep with
  | scan address connectOk notifyOk hscan hseen =>
      have hbase := baseInv_onScanResult (s := { s.state with
          scannerSeen := addElem address s.state.scannerSeen })
        hnd hsub address connectOk notifyOk
      refine ⟨hbase.1, hbase.2, ?_⟩
      intro x hx y hy hxy
      exact hpair x
        (mem_approved_onScanResult (s := { s.state with
          scannerSeen := addElem address s.state.scannerSeen }) hx) y
        (mem_approved_onScanResult (s := { s.state with
          scannerSeen := addElem address s.state.scannerSeen }) hy) hxy
  | frameSignal address hc =>
      have hbase := baseInv_disconnect hnd hsub address
      refine ⟨hbase.1, hbase.2, ?_⟩
      intro x hx y hy hxy
      exact hpair x (mem_approved_disconnect.mp hx).1 y
        (mem_approved_disconnect.mp hy).1 hxy
  | frameAccept address hc =>
      by_cases hmem : address ∈ s.state.approvedAddresses
      · rw [approveEntry_of_mem hmem]
        exact ⟨hnd, hsub, hpair⟩
      · rw [approveEntry_spec hmem hc]
        refine ⟨nodup_addElem hnd, ?_, ?_⟩
        · intro b hb
          rcases mem_addElem.mp hb with hb1 | rfl
          · exact hsub b hb1
          · exact hc
        · intro x hx y hy hxy
          rcases mem_addElem.mp hx with hx1 | rfl
          · rcases mem_addElem.mp hy with hy1 | rfl
            · obtain ⟨t0, ht0, hw⟩ := hpair x hx1 y hy1 hxy
              exact ⟨t0, List.mem_append.mpr (Or.inl ht0), hw⟩
            · refine ⟨ApprovalTask.disconnecting y
                (s.state.clients.filter (fun b => b ≠ y)),
                List.mem_append.mpr (Or.inr (by simp)), Or.inr ⟨rfl, ?_⟩⟩
              rw [taskRemaining, List.mem_filter]
              exact ⟨hsub x hx1, by simpa using hxy⟩
          · rcases mem_addElem.mp hy with hy1 | rfl
            · refine ⟨ApprovalTask.disconnecting x
                (s.state.clients.filter (fun b => b ≠ x)),
                List.mem_append.mpr (Or.inr (by simp)), Or.inl ⟨rfl, ?_⟩⟩
              rw [taskRemaining, List.mem_filter]
              refine ⟨hsub y hy1, by simpa using fun hyx => hxy hyx.symm⟩
            · exact absurd rfl hxy
  | taskDisc address o os pre post h =>
      have hbase := baseInv_disconnect hnd hsub o
      refine ⟨hbase.1, hbase.2, ?_⟩
      intro x hx y hy hxy
      have hx1 := mem_approved_disconnect.mp hx
      have hy1 := mem_approved_disconnect.mp hy
      obtain ⟨t0, ht0, hw⟩ := hpair x hx1.1 y hy1.1 hxy
      rw [h] at ht0
      rcases List.mem_append.mp ht0 with ht0 | ht0
      · exact ⟨t0, List.mem_append.mpr (Or.inl ht0), hw⟩
      · rcases List.mem_cons.mp ht0 with rfl | ht0
        · rcases hw with ⟨ha, hr⟩ | ⟨ha, hr⟩
          · rw [taskRemaining] at hr
            rcases List.mem_cons.mp hr with rfl | hr
            · exact absurd rfl hy1.2
            · refine ⟨ApprovalTask.disconnecting address os,
                List.mem_append.mpr (Or.inr (List.mem_cons_self _ _)),
                Or.inl ⟨ha, hr⟩⟩
          · rw [taskRemaining] at hr
            rcases List.mem_cons.mp hr with rfl | hr
            · exact absurd rfl hx1.2
            · refine ⟨ApprovalTask.disconnecting address os,
                List.mem_append.mpr (Or.inr (List.mem_cons_self _ _)),
                Or.inr ⟨ha, hr⟩⟩
        · exact ⟨t0, List.mem_append.mpr
            (Or.inr (List.mem_cons_of_mem _ ht0)), hw⟩
  | taskGatherDone address pre post h =>
      refine ⟨hnd, hsub, ?_⟩
      intro x hx y hy hxy
      obtain ⟨t0, ht0, hw⟩ := hpair x hx y hy hxy
      rw [h] at ht0
      rcases List.mem_append.mp ht0 with ht0 | ht0
      · exact ⟨t0, List.mem_append.mpr (Or.inl ht0), hw⟩
      · rcases List.mem_cons.mp ht0 with rfl | ht0
        · rcases hw with ⟨_, hr⟩ | ⟨_, hr⟩ <;>
            exact absurd hr (List.not_mem_nil _)
        · exact ⟨t0, List.mem_append.mpr
            (Or.inr (List.mem_cons_of_mem _ ht0)), hw⟩
  | taskApproveOk address pre post h =>
      refine ⟨hnd, hsub, ?_⟩
      intro x hx y hy hxy
      obtain ⟨t0, ht0, hw⟩ := hpair x hx y hy hxy
      rw [h] at ht0
      rcases List.mem_append.mp ht0 with ht0 | ht0
      · exact ⟨t0, List.mem_append.mpr (Or.inl ht0), hw⟩
      · rcases List.mem_cons.mp ht0 with rfl | ht0
        · rcases hw with ⟨_, hr⟩ | ⟨_, hr⟩ <;>
            exact absurd hr (List.not_mem_nil _)
        · exact ⟨t0, List.mem_append.mpr (Or.inr ht0), hw⟩
  | taskApproveFail address pre post h =>
      have hbase := baseInv_disconnect hnd hsub address
      refine ⟨hbase.1, hbase.2, ?_⟩
      intro x hx y hy hxy
      have hx1 := mem_approved_disconnect.mp hx
      have hy1 := mem_approved_disconnect.mp hy
      obtain ⟨t0, ht0, hw⟩ := hpair x hx1.1 y hy1.1 hxy
      rw [h] at ht0
      rcases List.mem_append.mp ht0 with ht0 | ht0
      · exact ⟨t0, List.mem_append.mpr (Or.inl ht0), hw⟩
      · rcases List.mem_cons.mp ht0 with rfl | ht0
        · rcases hw with ⟨_, hr⟩ | ⟨_, hr⟩ <;>
            exact absurd hr (List.not_mem_nil _)
        · exact ⟨t0, List.mem_append.mpr (Or.inr ht0), hw⟩
  | tick live =>
      have hbase := baseInv_foldl_disconnect
        (l := s.state.clients.filter (fun a => a ∉ live)) hnd hsub
      refine ⟨hbase.1, hbase.2, ?_⟩
      intro x hx y hy hxy
      have hx1 : x ∈ ((s.state.clients.filter (fun a => a ∉ live)).foldl
          ConnectorState.disconnect s.state).approvedAddresses := hx
      have hy1 : y ∈ ((s.state.clients.filter (fun a => a ∉ live)).foldl
          ConnectorState.disconnect s.state).approvedAddresses := hy
      exact hpair x (mem_approved_foldl_disconnect.mp hx1).1 y
        (mem_approved_foldl_disconnect.mp hy1).1 hxy

/-- Every reachable configuration of the event loop satisfies `FineInv`. -/
theorem fineInv_reachable {s : FineState} (h : FineReachable s) : FineInv s := by
  induction h with
  | init =>
      exact ⟨List.nodup_nil, by simp [connectorInit], by simp [connectorInit]⟩
  | step hr hstep ih => exact fineInv_step ih hstep

theorem fineReachable_of_eq {s t : FineState} (h : FineReachable s)
    (e : s = t) : FineReachable t :=
  e ▸ h

/-- Counterexample for C1: two near-simultaneous accepting first frames
put BOTH addresses in the approved set at one instant (`raceState` is
reachable with approved set `[1, 2]`), because `_handle_approved_connection`
suspends between the `add` and the competitors' disconnects; and one
scheduler step later the LATER session (address 2) holds the approval
while the EARLIER one has been forced to `Disconnected` — the opposite of
the claim's "the later session is forced to Disconnected". -/
theorem approved_race_counterexample :
    FineReachable raceState ∧
      raceState.state.approvedAddresses = [1, 2] ∧
      FineStep raceState raceWinnerState ∧
      FineReachable raceWinnerState ∧
      raceWinnerState.state.approvedAddresses = [2] := by
  have h1 : FineReachable racePrefix1 :=
    fineReachable_of_eq
      (FineReachable.step FineReachable.init
        (FineStep.scan _ 1 true true rfl (by decide)))
      (by decide)
  have h2 : FineReachable racePrefix2 :=
    fineReachable_of_eq
      (FineReachable.step h1 (FineStep.scan _ 2 true true (by decide) (by decide)))
      (by decide)
  have h3 : FineReachable racePrefix3 :=
    fineReachable_of_eq
      (FineReachable.step h2 (FineStep.frameAccept _ 1 (by decide)))
      (by decide)
  have h4 : FineReachable raceState :=
    fineReachable_of_eq
      (FineReachable.step h3 (FineStep.frameAccept _ 2 (by decide)))
      (by decide)
  have hstep : FineStep raceState raceWinnerState := by
    have e : (⟨raceState.state.disconnect 1,
        [ApprovalTask.disconnecting 1 [2]] ++
          ApprovalTask.disconnecting 2 [] :: []⟩ : FineState) =
        raceWinnerState := by decide
    exact e ▸ FineStep.taskDisc raceState 2 1 []
      [ApprovalTask.disconnecting 1 [2]] [] (by decide)
  exact ⟨h4, by decide, hstep, FineReachable.step h4 hstep, by decide⟩

/-- C1 (amended): while approval handlers are parked at their suspension
points the approved set can transiently hold two addresses (see the
counterexample), and the entry segment of `_handle_approved_connection`
keeps the newly eligible LATER session approved while scheduling
disconnects of every OTHER stored client, never of itself; but in every
reachable quiescent configuration — no approval handler parked mid-await —
at most one address is approved. -/
theorem approval_exclusivity_amended :
    (∀ s : FineState, FineReachable s → s.tasks = [] →
      s.state.approvedAddresses.length ≤ 1) ∧
      (∀ (s : FineState) (address : Nat), address ∈ s.state.clients →
        address ∉ s.state.approvedAddresses →
        address ∈ (approveEntry s address).state.approvedAddresses ∧
          (approveEntry s address).tasks = s.tasks ++
            [ApprovalTask.disconnecting address
              (s.state.clients.filter (fun b => b ≠ address))] ∧
          address ∉ s.state.clients.filter (fun b => b ≠ address)) := by
  constructor
  · intro s hr hq
    obtain ⟨hnd, _, hpair⟩ := fineInv_reachable hr
    have hall : ∀ x ∈ s.state.approvedAddresses,
        ∀ y ∈ s.state.approvedAddresses, x = y := by
      intro x hx y hy
      by_contra hxy
      obtain ⟨t0, ht0, _⟩ := hpair x hx y hy hxy
      rw [hq] at ht0
      exact absurd ht0 (List.not_mem_nil t0)
    cases hl : s.state.approvedAddresses with
    | nil => simp
    | cons a rest =>
        refine length_le_one_of_forall_eq (hl ▸ hnd) a ?_
        intro b hb
        exact hall b (by rw [hl]; exact hb) a (by rw [hl]; simp)
  · intro s address hc hmem
    refine ⟨?_, ?_, ?_⟩
    · rw [approveEntry_spec hmem hc]
      exact mem_addElem.mpr (Or.inr rfl)
    · rw [approveEntry_spec hmem hc]
    · simp [List.mem_filter]

/-- Witness for C1 (amended): the quiescent bound applied at the concrete
reachable quiescent configuration with two connected clients, and the
entry-segment facts applied to an accepting frame from address 2 there. -/
theorem approval_exclusivity_amended_witness :
    racePrefix2.state.approvedAddresses.length ≤ 1 ∧
      (2 ∈ (approveEntry racePrefix2 2).state.approvedAddresses ∧
        (approveEntry racePrefix2 2).tasks = racePrefix2.tasks ++
          [ApprovalTask.disconnecting 2
            (racePrefix2.state.clients.filter (fun b => b ≠ 2))] ∧
        2 ∉ racePrefix2.state.clients.filter (fun b => b ≠ 2)) := by
  have h1 : FineReachable racePrefix1 :=
    fineReachable_of_eq
      (FineReachable.step FineReachable.init
        (FineStep.scan _ 1 true true rfl (by decide)))
      (by decide)
  have h2 : FineReachable racePrefix2 :=
    fineReachable_of_eq
      (FineReachable.step h1 (FineStep.scan _ 2 true true (by decide) (by decide)))
      (by decide)
  exact ⟨approval_exclusivity_amended.1 racePrefix2 h2 rfl,
    approval_exclusivity_amended.2 racePrefix2 2 (by decide) (by decide)⟩

/-- C2: the `disconnect` cleanup removes the address from the approved set,
makes the scanner forget the address (so the device is eligible for
rediscovery), and, whenever no approved session remains afterwards, resumes
scanning. -/
theorem disconnect_cleanup (s : ConnectorState) (address : Nat) :
    address ∉ (s.disconnect address).approvedAddresses ∧
      address ∉ (s.disconnect address).scannerSeen ∧
      ((s.disconnect address).approvedAddresses = [] →
        (s.disconnect address).scanning = true) := by
  refine ⟨?_, ?_, ?_⟩
  · simp [ConnectorState.disconnect, mem_removeElem]
  · simp [ConnectorState.disconnect, mem_removeElem]
  · intro hempty
    simp only [ConnectorState.disconnect] at hempty ⊢
    rw [if_pos (List.isEmpty_iff.mpr hempty)]

/-- Witness for C2: the cleanup evaluated after disconnecting the only
approved client of a concrete state. -/
theorem disconnect_cleanup_witness :
    3 ∉ ({ clients := [3], approvedAddresses := [3], informedAddresses := [3],
           clientInfoWrites := [3], scannerSeen := [3],
           scanning := false : ConnectorState }.disconnect 3).approvedAddresses ∧
      3 ∉ ({ clients := [3], approvedAddresses := [3], informedAddresses := [3],
             clientInfoWrites := [3], scannerSeen := [3],
             scanning := false : ConnectorState }.disconnect 3).scannerSeen ∧
      (({ clients := [3], approvedAddresses := [3], informedAddresses := [3],
          clientInfoWrites := [3], scannerSeen := [3],
          scanning := false : ConnectorState }.disconnect 3).approvedAddresses = [] →
        ({ clients := [3], approvedAddresses := [3], informedAddresses := [3],
           clientInfoWrites := [3], scannerSeen := [3],
           scanning := false : ConnectorState }.disconnect 3).scanning = true) :=
  disconnect_cleanup
    { clients := [3], approvedAddresses := [3], informedAddresses := [3],
      clientInfoWrites := [3], scannerSeen := [3], scanning := false } 3

theorem sendClientInfo_of_mem {s : ConnectorState} {address : Nat}
    (h : address ∈ s.informedAddresses) : sendClientInfo s address = s := by
  simp [sendClientInfo, h]

theorem mem_informed_sendClientInfo {s : ConnectorState} {address : Nat} :
    address ∈ (sendClientInfo s address).informedAddresses := by
  unfold sendClientInfo
  split
  · assumption
  · exact mem_addElem.mpr (Or.inr rfl)

/-- C9: the client-info handshake write is idempotent per address — when
the address is already in the informed set the `ClientInfo` write is
skipped and the whole call is a no-op (the ghost write trace included), so
a second handshake attempt leaves the state exactly as the first left it. -/
theorem sendClientInfo_idempotent (s : ConnectorState) (address : Nat) :
    (address ∈ s.informedAddresses → sendClientInfo s address = s) ∧
      sendClientInfo (sendClientInfo s address) address =
        sendClientInfo s address := by
  constructor
  · intro h
    exact sendClientInfo_of_mem h
  · exact sendClientInfo_of_mem mem_informed_sendClientInfo

/-- Witness for C9: the no-op evaluated on a concrete state that has
already informed address 2. -/
theorem sendClientInfo_idempotent_witness :
    (2 ∈ ({ clients := [2], approvedAddresses := [], informedAddresses := [2],
            clientInfoWrites := [2], scannerSeen := [2],
            scanning := true : ConnectorState }).informedAddresses →
        sendClientInfo
          { clients := [2], approvedAddresses := [], informedAddresses := [2],
            clientInfoWrites := [2], scannerSeen := [2], scanning := true } 2 =
          { clients := [2], approvedAddresses := [], informedAddresses := [2],
            clientInfoWrites := [2], scannerSeen := [2], scanning := true }) ∧
      sendClientInfo
          (sendClientInfo
            { clients := [2], approvedAddresses := [], informedAddresses := [2],
              clientInfoWrites := [2], scannerSeen := [2], scanning := true } 2) 2 =
        sendClientInfo
          { clients := [2], approvedAddresses := [], informedAddresses := [2],
            clientInfoWrites := [2], scannerSeen := [2], scanning := true } 2 :=
  sendClientInfo_idempotent
    { clients := [2], approvedAddresses := [], informedAddresses := [2],
      clientInfoWrites := [2], scannerSeen := [2], scanning := true } 2

/-- Counterexample for C8: a device whose advertisement carries the target
service UUID but whose name `"abc"` fails the filter `"watch"` is silently
dropped, yet it IS remembered in the dedup set, and a later advertisement
of the same device with a passing name is not re-evaluated: it is dropped
by the dedup early-return. -/
theorem scanner_remembers_filtered_counterexample :
    (detectionCallback
        { devices := [], serviceUuid := "svc", nameFilter := some "watch" } 7
        { manufacturerName := "abc", localName := "", serviceUuids := ["svc"] }).2
        = none ∧
      7 ∈ (detectionCallback
        { devices := [], serviceUuid := "svc", nameFilter := some "watch" } 7
        { manufacturerName := "abc", localName := "", serviceUuids := ["svc"] }).1.devices ∧
      (detectionCallback
        (detectionCallback
          { devices := [], serviceUuid := "svc", nameFilter := some "watch" } 7
          { manufacturerName := "abc", localName := "", serviceUuids := ["svc"] }).1 7
        { manufacturerName := "watch-x", localName := "", serviceUuids := ["svc"] }).2
        = none := by
  decide

/-- C8 (amended): an advertisement carrying the target service UUID whose
name fails the case-insensitive filter is silently dropped but the device
IS remembered as seen, so no later advertisement of it is re-evaluated
(every subsequent detection returns early with no report); in general a
device already in the dedup set is never reported again, so passing devices
are reported at most once per scanning session. -/
theorem scanner_filter_drops_but_remembers (st : ScannerState) (d : Nat)
    (adv : AdvertisementData) (f : String)
    (hnew : d ∉ st.devices) (hf : st.nameFilter = some f)
    (hsvc : st.serviceUuid ∈ adv.serviceUuids)
    (hname : containsCaseInsensitive (advertisedName adv) f = false) :
    (detectionCallback st d adv).2 = none ∧
      d ∈ (detectionCallback st d adv).1.devices ∧
      (∀ adv2, detectionCallback (detectionCallback st d adv).1 d adv2 =
        ((detectionCallback st d adv).1, none)) ∧
      (∀ st2 adv2, d ∈ st2.devices →
        detectionCallback st2 d adv2 = (st2, none)) := by
  have hseen : ∀ st2 adv2, d ∈ st2.devices →
      detectionCallback st2 d adv2 = (st2, none) := by
    intro st2 adv2 h2
    simp [detectionCallback, h2]
  have hstep : detectionCallback st d adv =
      ({ st with devices := addElem d st.devices }, none) := by
    simp only [detectionCallback, if_neg hnew, if_pos hsvc, hf, hname,
      Bool.not_false, if_pos]
  have hmem : d ∈ (detectionCallback st d adv).1.devices := by
    rw [hstep]
    exact mem_addElem.mpr (Or.inr rfl)
  refine ⟨by rw [hstep], hmem, ?_, hseen⟩
  intro adv2
  exact hseen _ adv2 hmem

/-- Witness for C8 (amended): the behavior evaluated at the concrete
filtered-out advertisement of the counterexample. -/
theorem scanner_filter_drops_but_remembers_witness :
    (detectionCallback
        { devices := [], serviceUuid := "s", nameFilter := some "w" } 9
        { manufacturerName := "abc", localName := "", serviceUuids := ["s"] }).2
        = none ∧
      9 ∈ (detectionCallback
        { devices := [], serviceUuid := "s", nameFilter := some "w" } 9
        { manufacturerName := "abc", localName := "", serviceUuids := ["s"] }).1.devices ∧
      (∀ adv2, detectionCallback
          (detectionCallback
            { devices := [], serviceUuid := "s", nameFilter := some "w" } 9
            { manufacturerName := "abc", localName := "", serviceUuids := ["s"] }).1
          9 adv2 =
        ((detectionCallback
            { devices := [], serviceUuid := "s", nameFilter := some "w" } 9
            { manufacturerName := "abc", localName := "", serviceUuids := ["s"] }).1,
          none)) ∧
      (∀ st2 adv2, 9 ∈ st2.devices →
        detectionCallback st2 9 adv2 = (st2, none)) :=
  scanner_filter_drops_but_remembers
    { devices := [], serviceUuid := "s", nameFilter := some "w" } 9
    { manufacturerName := "abc", localName := "", serviceUuids := ["s"] } "w"
    (by decide) rfl (by decide) (by decide)

/-- Counterexample for C7: a 2-byte payload against the registered format
`">i"` (4 bytes) makes `unpack_chained` raise `struct.error`, and the
error propagates out of `_on_custom_data` (there is no try/except in the
handler), so it is not true that no error escapes the handler. -/
theorem custom_data_error_escapes_counterexample :
    onCustomData [("u", ">i")] "u" [0, 0] = none ∧
      unpackChained ">i" [0, 0] = none := by
  decide

/-- C7 (amended): a custom-characteristic notification whose payload does
not match its registered format descriptor, or whose descriptor is
malformed, fires no callback — but the `struct` exception propagates out
of the notification handler uncaught rather than being swallowed inside
it; other characteristics and the main protocol channel are unaffected,
since the handler keeps no state and each notification is processed
independently. -/
theorem custom_data_malformed_dropped (customData : List (String × String))
    (uuid fmt : String) (data : List Nat)
    (hlookup : customData.lookup uuid = some fmt)
    (hbad : unpackChained fmt data = none) :
    onCustomData customData uuid data = none ∧
      (∀ batch, processCustomNotifications customData ((uuid, data) :: batch) =
        none :: processCustomNotifications customData batch) := by
  have h1 : onCustomData customData uuid data = none := by
    simp [onCustomData, hlookup, hbad]
  refine ⟨h1, ?_⟩
  intro batch
  simp [processCustomNotifications, h1]

/-- Witness for C7 (amended): the malformed-update behavior evaluated at
the concrete 2-byte payload of the counterexample. -/
theorem custom_data_malformed_dropped_witness :
    onCustomData [("u", ">i")] "u" [0, 0] = none ∧
      (∀ batch, processCustomNotifications [("u", ">i")] (("u", [0, 0]) :: batch) =
        none :: processCustomNotifications [("u", ">i")] batch) :=
  custom_data_malformed_dropped [("u", ">i")] "u" ">i" [0, 0] (by decide) (by decide)

/-- C4: the encoded haptic message always carries intensity
`min(max(intensity, 0), 1)` and duration `min(max(duration, 0), 5000)`;
in particular `(1.5, 9000)` encodes as `(1, 5000)` and `(-0.2, -10)`
encodes as `(0, 0)`. -/
theorem haptics_clamped (intensity : ℚ) (durationMs : Int) :
    (createHapticsUpdate intensity durationMs).hapticEvent =
        some { type := HapticType.ONESHOT,
               length := min (max durationMs 0) 5000,
               intensity := min (max intensity 0) 1 } ∧
      (createHapticsUpdate (3/2) 9000).hapticEvent =
        some { type := HapticType.ONESHOT, length := 5000, intensity := 1 } ∧
      (createHapticsUpdate (-1/5) (-10)).hapticEvent =
        some { type := HapticType.ONESHOT, length := 0, intensity := 0 } := by
  refine ⟨rfl, ?_, ?_⟩ <;> simp [createHapticsUpdate] <;> norm_num

/-- C5: for every frame with non-zero gravity, the derived
arm-direction-change of the code equals the spec formula on the casted
vectors; in particular gravity `(0, 0, 9.81)`, angular velocity
`(0, 2, 0)` and right hand yield `delta_x = 0` and `delta_y = -2`. -/
theorem arm_direction_formula :
    (∀ (hand : Hand) (frame : SensorFrame), frame.gravity ≠ (0, 0, 0) →
      armDirectionDeltas hand frame =
        specArmDirectionChange hand (castTriple frame.gravity)
          (castTriple frame.angularVelocity)) ∧
      armDirectionDeltas Hand.RIGHT armSampleFrame = (0, -2) := by
  constructor
  · intro hand frame _
    rfl
  · have hs : Real.sqrt ((0 : ℝ) * 0 + 0 * 0 + 981 / 100 * (981 / 100)) =
        981 / 100 := by
      rw [show (0 : ℝ) * 0 + 0 * 0 + 981 / 100 * (981 / 100) =
        981 / 100 * (981 / 100) by ring]
      exact Real.sqrt_mul_self (by norm_num)
    simp only [armDirectionDeltas, normalize3, castTriple, armSampleFrame]
    push_cast
    rw [hs]
    norm_num

/-- Witness for C5: the code/spec agreement applied at the concrete frame
`armSampleFrame` for the right hand. -/
theorem arm_direction_formula_witness :
    armDirectionDeltas Hand.RIGHT armSampleFrame =
      specArmDirectionChange Hand.RIGHT (castTriple armSampleFrame.gravity)
        (castTriple armSampleFrame.angularVelocity) :=
  arm_direction_formula.1 Hand.RIGHT armSampleFrame (by norm_num [armSampleFrame])

theorem evKind_touchEventFor {t : TouchEventType} {c : Vec2} {e : CEvent}
    (h : e ∈ touchEventFor t c) : evKind e = 5 := by
  cases t <;> simp only [touchEventFor, List.mem_singleton, List.not_mem_nil] at h <;>
    first
    | exact absurd h (by simp)
    | simp [h, evKind]

theorem evKind_protoOnTouchEvents {l : List PTouchEvent} {e : CEvent}
    (h : e ∈ (protoOnTouchEvents l).1) : evKind e = 5 := by
  induction l with
  | nil => simp [protoOnTouchEvents] at h
  | cons t rest ih =>
      rw [protoOnTouchEvents] at h
      cases hc : t.coords.head? with
      | none => rw [hc] at h; simp at h
      | some c =>
          rw [hc] at h
          simp only [List.mem_append] at h
          rcases h with h | h
          · exact evKind_touchEventFor h
          · exact ih h

theorem evKind_protoOnButtonEvents {bs : List PButtonEvent} {e : CEvent}
    (h : e ∈ protoOnButtonEvents bs) : evKind e = 6 := by
  unfold protoOnButtonEvents at h
  split at h <;> simp at h
  simp [h, evKind]

theorem evKind_protoOnRotaryEvents {rs : List PRotaryEvent} {e : CEvent}
    (h : e ∈ protoOnRotaryEvents rs) : evKind e = 7 := by
  unfold protoOnRotaryEvents at h
  simp only [List.mem_map] at h
  obtain ⟨r, _, hr⟩ := h
  simp [← hr, evKind]

theorem evKind_infoStep {st : InfoState} {oi : Option PInfo} {e : CEvent}
    (h : e ∈ (infoStep st oi).2) : evKind e = 8 := by
  unfold infoStep at h
  cases oi with
  | none => simp at h
  | some i =>
      simp only at h
      split at h <;> simp at h
      simp [h, evKind]

theorem evKind_pressureEvents {p : ℚ} {e : CEvent}
    (h : e ∈ pressureEvents p) : evKind e = 9 := by
  unfold pressureEvents at h
  split at h <;> simp at h
  simp [h, evKind]

theorem not_sensors_of_evKind_ge {e : CEvent} (h : 5 ≤ evKind e) :
    isSensorsEvent e = false := by
  cases e <;> first
    | rfl
    | simp [evKind] at h

/-- Shared shape of the callback trace for C3: when the trace is the five
fixed events followed by a tail whose events all have kind ≥ 5, the first
five events are exactly the fixed ones, the only `on_sensors` invocation
carries the given frame, and `on_tap` / `on_gesture(PINCH_TAP)` each fire
exactly once. -/
theorem decode_trace_facts (probs : List (GestureType × ℚ)) (fr : SensorFrame)
    (rest : List CEvent) (hrest : ∀ e ∈ rest, 5 ≤ evKind e) :
    (CEvent.gestureProbability probs :: CEvent.sensors fr ::
      CEvent.armDirectionChange fr :: CEvent.tap ::
      CEvent.gesture GestureType.PINCH_TAP :: rest).take 5 =
      [CEvent.gestureProbability probs, CEvent.sensors fr,
        CEvent.armDirectionChange fr, CEvent.tap,
        CEvent.gesture GestureType.PINCH_TAP] ∧
    (CEvent.gestureProbability probs :: CEvent.sensors fr ::
      CEvent.armDirectionChange fr :: CEvent.tap ::
      CEvent.gesture GestureType.PINCH_TAP :: rest).filter isSensorsEvent =
      [CEvent.sensors fr] ∧
    (CEvent.gestureProbability probs :: CEvent.sensors fr ::
      CEvent.armDirectionChange fr :: CEvent.tap ::
      CEvent.gesture GestureType.PINCH_TAP :: rest).count CEvent.tap = 1 ∧
    (CEvent.gestureProbability probs :: CEvent.sensors fr ::
      CEvent.armDirectionChange fr :: CEvent.tap ::
      CEvent.gesture GestureType.PINCH_TAP :: rest).count
      (CEvent.gesture GestureType.PINCH_TAP) = 1 := by
  have hfilter : rest.filter isSensorsEvent = [] := by
    rw [List.filter_eq_nil_iff]
    intro e he
    simp [not_sensors_of_evKind_ge (hrest e he)]
  have htap : rest.count CEvent.tap = 0 := by
    rw [List.count_eq_zero]
    intro hmem
    have := hrest _ hmem
    simp [evKind] at this
  have hgest : rest.count (CEvent.gesture GestureType.PINCH_TAP) = 0 := by
    rw [List.count_eq_zero]
    intro hmem
    have := hrest _ hmem
    simp [evKind] at this
  refine ⟨rfl, ?_, ?_, ?_⟩
  · simp [List.filter, isSensorsEvent, hfilter]
  · simp [List.count_cons, htap]
  · simp [List.count_cons, hgest]

/-- C3: a frame with a sensor batch of three frames and a gesture batch of
one pinch tap delivers the LAST sensor frame to `on_sensors`, fires
`on_tap` and `on_gesture(PINCH_TAP)` exactly once each, and invokes the
callbacks in decode order: gesture probability first, then the sensor
(and derived arm-direction) events, then the gesture events. -/
theorem decode_order_tap (st : InfoState) (u : Update)
    (f0 f1 f2 : PSensorFrame) (g : PGesture)
    (hs : u.sensorFrames = [f0, f1, f2]) (hg : u.gestures = [g])
    (ht : g.type = GestureType.PINCH_TAP) :
    ((dispatchUpdate st u).events).take 5 =
      [CEvent.gestureProbability (probDict u.probabilities),
        CEvent.sensors (mkSensorFrame f2 u.unixTime),
        CEvent.armDirectionChange (mkSensorFrame f2 u.unixTime),
        CEvent.tap, CEvent.gesture GestureType.PINCH_TAP] ∧
    ((dispatchUpdate st u).events).filter isSensorsEvent =
      [CEvent.sensors (mkSensorFrame f2 u.unixTime)] ∧
    ((dispatchUpdate st u).events).count CEvent.tap = 1 ∧
    ((dispatchUpdate st u).events).count
      (CEvent.gesture GestureType.PINCH_TAP) = 1 := by
  have hlast : u.sensorFrames.getLast? = some f2 := by
    rw [hs]
    rfl
  have hgest : protoOnGestures u.gestures =
      [CEvent.tap, CEvent.gesture GestureType.PINCH_TAP] := by
    rw [hg]
    simp [protoOnGestures, ht]
  have hev : ∃ rest, (dispatchUpdate st u).events =
      CEvent.gestureProbability (probDict u.probabilities) ::
        CEvent.sensors (mkSensorFrame f2 u.unixTime) ::
        CEvent.armDirectionChange (mkSensorFrame f2 u.unixTime) ::
        CEvent.tap :: CEvent.gesture GestureType.PINCH_TAP :: rest ∧
      ∀ e ∈ rest, 5 ≤ evKind e := by
    unfold dispatchUpdate
    rw [hlast]
    simp only [hgest]
    by_cases hraised : (protoOnTouchEvents u.touchEvents).2 = true
    · rw [if_pos hraised]
      refine ⟨(protoOnTouchEvents u.touchEvents).1, by simp, ?_⟩
      intro e he
      rw [evKind_protoOnTouchEvents he]
    · rw [if_neg hraised]
      refine ⟨(protoOnTouchEvents u.touchEvents).1 ++
        protoOnButtonEvents u.buttonEvents ++
        protoOnRotaryEvents u.rotaryEvents ++
        (infoStep st u.info).2 ++ pressureEvents u.pressure, by simp, ?_⟩
      intro e he
      simp only [List.mem_append] at he
      rcases he with ((((he | he) | he) | he) | he)
      · rw [evKind_protoOnTouchEvents he]
      · rw [evKind_protoOnButtonEvents he]
        omega
      · rw [evKind_protoOnRotaryEvents he]
        omega
      · rw [evKind_infoStep he]
        omega
      · rw [evKind_pressureEvents he]
        omega
  obtain ⟨rest, hev, hrest⟩ := hev
  rw [hev]
  exact decode_trace_facts (probDict u.probabilities)
    (mkSensorFrame f2 u.unixTime) rest hrest

/-- Witness for C3: the decode-order facts evaluated on
`sampleTapUpdate`. -/
theorem decode_order_tap_witness :
    ((dispatchUpdate infoInit sampleTapUpdate).events).take 5 =
      [CEvent.gestureProbability (probDict sampleTapUpdate.probabilities),
        CEvent.sensors (mkSensorFrame (samplePFrame 3) sampleTapUpdate.unixTime),
        CEvent.armDirectionChange
          (mkSensorFrame (samplePFrame 3) sampleTapUpdate.unixTime),
        CEvent.tap, CEvent.gesture GestureType.PINCH_TAP] ∧
    ((dispatchUpdate infoInit sampleTapUpdate).events).filter isSensorsEvent =
      [CEvent.sensors (mkSensorFrame (samplePFrame 3) sampleTapUpdate.unixTime)] ∧
    ((dispatchUpdate infoInit sampleTapUpdate).events).count CEvent.tap = 1 ∧
    ((dispatchUpdate infoInit sampleTapUpdate).events).count
      (CEvent.gesture GestureType.PINCH_TAP) = 1 :=
  decode_order_tap infoInit sampleTapUpdate (samplePFrame 1) (samplePFrame 2)
    (samplePFrame 3) { type := GestureType.PINCH_TAP, deltaTime := 0 }
    rfl rfl rfl

/-- C6: an info update whose hand field is `NONE` merges only the battery
percentage (and only when it is non-zero); every other metadata field
keeps its prior value and `on_info_update` does not fire. -/
theorem info_none_hand_battery_only (st : InfoState) (info : PInfo)
    (h : info.hand = Hand.NONE) :
    (protoOnInfo st info).1.batteryPercentage =
        (if info.batteryPercentage ≠ 0 then info.batteryPercentage
          else st.batteryPercentage) ∧
      (protoOnInfo st info).1.hand = st.hand ∧
      (protoOnInfo st info).1.screenResolution = st.screenResolution ∧
      (protoOnInfo st info).1.hapticsAvailable = st.hapticsAvailable ∧
      (protoOnInfo st info).1.appVersion = st.appVersion ∧
      (protoOnInfo st info).1.appId = st.appId ∧
      (protoOnInfo st info).1.deviceName = st.deviceName ∧
      (protoOnInfo st info).1.manufacturer = st.manufacturer ∧
      (protoOnInfo st info).1.modelInfo = st.modelInfo ∧
      (protoOnInfo st info).1.availableModels = st.availableModels ∧
      (protoOnInfo st info).1.activeModel = st.activeModel ∧
      (protoOnInfo st info).2 = false := by
  unfold protoOnInfo
  rw [if_pos h]
  split <;> simp

/-- Witness for C6: a concrete battery-only update (battery 55, hand
`NONE`) evaluated against the initial metadata. -/
theorem info_none_hand_battery_only_witness :
    (protoOnInfo infoInit
        { hand := Hand.NONE, appId := "a", appVersion := "v",
          availableModels := [], activeModel := { gestures := [] },
          batteryPercentage := 55, touchScreenResolution := (1, 2),
          hapticsAvailable := true, deviceName := "d", manufacturer := "m",
          modelInfo := "x" }).1.batteryPercentage =
        (if (55 : Int) ≠ 0 then (55 : Int) else infoInit.batteryPercentage) ∧
      (protoOnInfo infoInit
        { hand := Hand.NONE, appId := "a", appVersion := "v",
          availableModels := [], activeModel := { gestures := [] },
          batteryPercentage := 55, touchScreenResolution := (1, 2),
          hapticsAvailable := true, deviceName := "d", manufacturer := "m",
          modelInfo := "x" }).1.hand = infoInit.hand ∧
      (protoOnInfo infoInit
        { hand := Hand.NONE, appId := "a", appVersion := "v",
          availableModels := [], activeModel := { gestures := [] },
          batteryPercentage := 55, touchScreenResolution := (1, 2),
          hapticsAvailable := true, deviceName := "d", manufacturer := "m",
          modelInfo := "x" }).1.screenResolution = infoInit.screenResolution ∧
      (protoOnInfo infoInit
        { hand := Hand.NONE, appId := "a", appVersion := "v",
          availableModels := [], activeModel := { gestures := [] },
          batteryPercentage := 55, touchScreenResolution := (1, 2),
          hapticsAvailable := true, deviceName := "d", manufacturer := "m",
          modelInfo := "x" }).1.hapticsAvailable = infoInit.hapticsAvailable ∧
      (protoOnInfo infoInit
        { hand := Hand.NONE, appId := "a", appVersion := "v",
          availableModels := [], activeModel := { gestures := [] },
          batteryPercentage := 55, touchScreenResolution := (1, 2),
          hapticsAvailable := true, deviceName := "d", manufacturer := "m",
          modelInfo := "x" }).1.appVersion = infoInit.appVersion ∧
      (protoOnInfo infoInit
        { hand := Hand.NONE, appId := "a", appVersion := "v",
          availableModels := [], activeModel := { gestures := [] },
          batteryPercentage := 55, touchScreenResolution := (1, 2),
          hapticsAvailable := true, deviceName := "d", manufacturer := "m",
          modelInfo := "x" }).1.appId = infoInit.appId ∧
      (protoOnInfo infoInit
        { hand := Hand.NONE, appId := "a", appVersion := "v",
          availableModels := [], activeModel := { gestures := [] },
          batteryPercentage := 55, touchScreenResolution := (1, 2),
          hapticsAvailable := true, deviceName := "d", manufacturer := "m",
          modelInfo := "x" }).1.deviceName = infoInit.deviceName ∧
      (protoOnInfo infoInit
        { hand := Hand.NONE, appId := "a", appVersion := "v",
          availableModels := [], activeModel := { gestures := [] },
          batteryPercentage := 55, touchScreenResolution := (1, 2),
          hapticsAvailable := true, deviceName := "d", manufacturer := "m",
          modelInfo := "x" }).1.manufacturer = infoInit.manufacturer ∧
      (protoOnInfo infoInit
        { hand := Hand.NONE, appId := "a", appVersion := "v",
          availableModels := [], activeModel := { gestures := [] },
          batteryPercentage := 55, touchScreenResolution := (1, 2),
          hapticsAvailable := true, deviceName := "d", manufacturer := "m",
          modelInfo := "x" }).1.modelInfo = infoInit.modelInfo ∧
      (protoOnInfo infoInit
        { hand := Hand.NONE, appId := "a", appVersion := "v",
          availableModels := [], activeModel := { gestures := [] },
          batteryPercentage := 55, touchScreenResolution := (1, 2),
          hapticsAvailable := true, deviceName := "d", manufacturer := "m",
          modelInfo := "x" }).1.availableModels = infoInit.availableModels ∧
      (protoOnInfo infoInit
        { hand := Hand.NONE, appId := "a", appVersion := "v",
          availableModels := [], activeModel := { gestures := [] },
          batteryPercentage := 55, touchScreenResolution := (1, 2),
          hapticsAvailable := true, deviceName := "d", manufacturer := "m",
          modelInfo := "x" }).1.activeModel = infoInit.activeModel ∧
      (protoOnInfo infoInit
        { hand := Hand.NONE, appId := "a", appVersion := "v",
          availableModels := [], activeModel := { gestures := [] },
          batteryPercentage := 55, touchScreenResolution := (1, 2),
          hapticsAvailable := true, deviceName := "d", manufacturer := "m",
          modelInfo := "x" }).2 = false :=
  info_none_hand_battery_only infoInit
    { hand := Hand.NONE, appId := "a", appVersion := "v",
      availableModels := [], activeModel := { gestures := [] },
      batteryPercentage := 55, touchScreenResolution := (1, 2),
      hapticsAvailable := true, deviceName := "d", manufacturer := "m",
      modelInfo := "x" } rfl

/-- C10: dispatching a frame whose sensor batch is empty raises at
`frames[-1]`; only the gesture-probability callback (which precedes the
sensor step) fires, and the metadata state is untouched. -/
theorem empty_sensor_batch_raises (st : InfoState) (u : Update)
    (h : u.sensorFrames = []) :
    dispatchUpdate st u =
      { events := [CEvent.gestureProbability (probDict u.probabilities)],
        state := st, raised := true } := by
  unfold dispatchUpdate
  rw [h]
  rfl

/-- Witness for C10: a concrete frame with an empty sensor batch but a
gesture, a button, a rotary event, an info message and non-zero pressure;
none of their callbacks fire. -/
theorem empty_sensor_batch_raises_witness :
    dispatchUpdate infoInit
      { sensorFrames := [],
        gestures := [{ type := GestureType.PINCH_TAP, deltaTime := 0 }],
        touchEvents := [],
        buttonEvents := [{ id := 0, deltaTime := 0 }],
        rotaryEvents := [{ step := 1, deltaTime := 0 }],
        signals := [], deltaTime := 0, unixTime := 7,
        info := some
          { hand := Hand.RIGHT, appId := "a", appVersion := "v",
            availableModels := [], activeModel := { gestures := [] },
            batteryPercentage := 55, touchScreenResolution := (1, 2),
            hapticsAvailable := true, deviceName := "d", manufacturer := "m",
            modelInfo := "x" },
        probabilities := [], pressure := 5 } =
      { events := [CEvent.gestureProbability (probDict [])],
        state := infoInit, raised := true } :=
  empty_sensor_batch_raises infoInit
    { sensorFrames := [],
      gestures := [{ type := GestureType.PINCH_TAP, deltaTime := 0 }],
      touchEvents := [],
      buttonEvents := [{ id := 0, deltaTime := 0 }],
      rotaryEvents := [{ step := 1, deltaTime := 0 }],
      signals := [], deltaTime := 0, unixTime := 7,
      info := some
        { hand := Hand.RIGHT, appId := "a", appVersion := "v",
          availableModels := [], activeModel := { gestures := [] },
          batteryPercentage := 55, touchScreenResolution := (1, 2),
          hapticsAvailable := true, deviceName := "d", manufacturer := "m",
          modelInfo := "x" },
      probabilities := [], pressure := 5 } rfl

end TouchSdk
